import Mathlib

/-!
Verification of the GA4 report pipeline (`src/function_app.py`).

The embedding models:
* the report-request construction performed by `get_ga4_report`
  (the network call itself is external I/O and is represented abstractly),
* the row flattening and JSON serialization performed by
  `format_response_as_json` (Python `dict` comprehensions are modelled by
  `pyDict`, which replicates CPython insertion/overwrite semantics, and
  Python `zip` by `List.zip`, which truncates at the shorter list exactly
  as Python does),
* the control flow and output bindings of `main` (HTTP response, Cosmos DB
  document output, queue output).
-/

/-- Header object for a dimension, as in the GA4 response: carries a `name`. -/
structure DimensionHeader where
  name : String
deriving DecidableEq, Repr

/-- Header object for a metric, as in the GA4 response: carries a `name`. -/
structure MetricHeader where
  name : String
deriving DecidableEq, Repr

/-- A dimension value object of a report row; `value` is always a string. -/
structure DimensionValue where
  value : String
deriving DecidableEq, Repr

/-- A metric value object of a report row; `value` is always a string,
even for numeric metrics. -/
structure MetricValue where
  value : String
deriving DecidableEq, Repr

/-- One row of the report: parallel lists of dimension and metric values. -/
structure Row where
  dimension_values : List DimensionValue
  metric_values : List MetricValue
deriving DecidableEq, Repr

/-- The columnar GA4 report response consumed by `format_response_as_json`. -/
structure ReportResponse where
  dimension_headers : List DimensionHeader
  metric_headers : List MetricHeader
  rows : List Row
deriving DecidableEq, Repr

/-- Inserting a key/value pair into a Python `dict` (modelled as an ordered
association list): an existing key keeps its position and gets the new value,
a new key is appended at the end. -/
def dictInsert (d : List (String × String)) (k v : String) :
    List (String × String) :=
  if k ∈ d.map Prod.fst then
    d.map (fun p => if p.1 = k then (p.1, v) else p)
  else
    d ++ [(k, v)]

/-- The Python `dict` comprehension over a list of key/value pairs:
pairs are inserted left to right, so a repeated key ends with the value of
its last occurrence. -/
def pyDict (ps : List (String × String)) : List (String × String) :=
  ps.foldl (fun d p => dictInsert d p.1 p.2) []

/-- One flattened record, the Python dict
`\x7b"dimensions": \x7b...\x7d, "metrics": \x7b...\x7d\x7d`
built per row by `format_response_as_json`; each inner dict is an ordered
association list from header name to string value. -/
structure FlatRecord where
  dimensions : List (String × String)
  metrics : List (String × String)
deriving DecidableEq, Repr

/-- The per-row body of the loop in `format_response_as_json`:
`dim_name: dim_value.value` zipped from the header names and the row's
values, and likewise for metrics. Python `zip` truncates at the shorter
list; `List.zip` does the same. -/
def flattenRow (resp : ReportResponse) (row : Row) : FlatRecord :=
  { dimensions :=
      pyDict ((resp.dimension_headers.map DimensionHeader.name).zip
        (row.dimension_values.map DimensionValue.value)),
    metrics :=
      pyDict ((resp.metric_headers.map MetricHeader.name).zip
        (row.metric_values.map MetricValue.value)) }

/-- The `result` list accumulated by the loop in `format_response_as_json`:
one `FlatRecord` per response row, in response order. -/
def flattenRows (resp : ReportResponse) : List FlatRecord :=
  resp.rows.map (flattenRow resp)

/-- Four spaces of indentation per level, as `json.dumps(..., indent=4)`. -/
def pad (lvl : Nat) : String :=
  String.mk (List.replicate (4 * lvl) ' ')

/-- Lowercase hexadecimal digit, as used by the JSON encoder for control
characters. -/
def hexDigit (n : Nat) : Char :=
  if n < 10 then Char.ofNat (n + 48) else Char.ofNat (n + 87)

/-- Escaping of a single character inside a JSON string, as CPython's
`json.dumps` with `ensure_ascii=False`: quote, backslash and control
characters are escaped, everything else (including non-ASCII) is kept. -/
def escapeChar (c : Char) : String :=
  if c = '"' then "\\\""
  else if c = '\\' then "\\\\"
  else if c = '\n' then "\\n"
  else if c = '\t' then "\\t"
  else if c = '\r' then "\\r"
  else if c = Char.ofNat 8 then "\\b"
  else if c = Char.ofNat 12 then "\\f"
  else if c.toNat < 32 then
    "\\u00" ++ String.mk [hexDigit (c.toNat / 16), hexDigit (c.toNat % 16)]
  else
    String.singleton c

/-- A JSON string literal: quotes around the escaped characters. -/
def quoteStr (s : String) : String :=
  "\"" ++ String.join (s.toList.map escapeChar) ++ "\""

/-- The members of a JSON object of string values, one per line, separated
by `,` and newline, each line indented to `lvl`, key and value separated by
`: ` — the layout of `json.dumps(..., indent=4)`. -/
def dumpPairs (lvl : Nat) : List (String × String) → String
  | [] => ""
  | [(k, v)] => pad lvl ++ quoteStr k ++ ": " ++ quoteStr v
  | (k, v) :: rest =>
      pad lvl ++ quoteStr k ++ ": " ++ quoteStr v ++ ",\n" ++
        dumpPairs lvl rest

/-- A JSON object of string values under `json.dumps(..., indent=4)`:
an empty dict prints as `\x7b\x7d`, a non-empty one puts each member on its
own line. -/
def dumpDict (lvl : Nat) (ps : List (String × String)) : String :=
  if ps.isEmpty then "\x7b\x7d"
  else "\x7b\n" ++ dumpPairs (lvl + 1) ps ++ "\n" ++ pad lvl ++ "\x7d"

/-- One flattened record as printed by `json.dumps(..., indent=4)`: an
object with the two keys `"dimensions"` and `"metrics"`, in that order. -/
def dumpRecord (lvl : Nat) (r : FlatRecord) : String :=
  "\x7b\n" ++
    pad (lvl + 1) ++ quoteStr "dimensions" ++ ": " ++
      dumpDict (lvl + 1) r.dimensions ++ ",\n" ++
    pad (lvl + 1) ++ quoteStr "metrics" ++ ": " ++
      dumpDict (lvl + 1) r.metrics ++ "\n" ++
  pad lvl ++ "\x7d"

/-- The elements of the top-level JSON array, one per line at indent
level `lvl`. -/
def dumpRecordItems (lvl : Nat) : List FlatRecord → String
  | [] => ""
  | [r] => pad lvl ++ dumpRecord lvl r
  | r :: rest => pad lvl ++ dumpRecord lvl r ++ ",\n" ++ dumpRecordItems lvl rest

/-- `json.dumps(result, indent=4, ensure_ascii=False)` for the list of
flattened records: the empty list prints as `[]`, a non-empty list puts
each record on its own lines. -/
def dumpRecords : List FlatRecord → String
  | [] => "[]"
  | rs => "[\n" ++ dumpRecordItems 1 rs ++ "\n]"

/-- `format_response_as_json`: flattens every row of the response and
serializes the resulting list as indented JSON text. The Python body is a
total computation on a well-typed response (`zip` and dict comprehensions
never raise), so the embedding is a total function. -/
def format_response_as_json (resp : ReportResponse) : String :=
  dumpRecords (flattenRows resp)

example :
    format_response_as_json
      { dimension_headers := [{ name := "pagePath" }],
        metric_headers := [{ name := "sessions" }],
        rows := [{ dimension_values := [{ value := "/home" }],
                   metric_values := [{ value := "42" }] }] } =
    "[\n    \x7b\n        \"dimensions\": \x7b\n            \"pagePath\": \"/home\"\n        \x7d,\n        \"metrics\": \x7b\n            \"sessions\": \"42\"\n        \x7d\n    \x7d\n]" := by
  decide

/-- JSON values, restricted to the shapes the flattener emits: strings,
arrays, and objects with string keys. -/
inductive Json where
  | str : String → Json
  | arr : List Json → Json
  | obj : List (String × Json) → Json

/-- The JSON object for the inner `"dimensions"`/`"metrics"` dicts:
every value is a JSON string — the flattener performs no type coercion. -/
def pairsToJson (ps : List (String × String)) : List (String × Json) :=
  ps.map (fun p => (p.1, Json.str p.2))

/-- The JSON object built for one flattened record: the two keys
`"dimensions"` and `"metrics"`, each holding an object of string values. -/
def recordToJson (r : FlatRecord) : Json :=
  Json.obj [("dimensions", Json.obj (pairsToJson r.dimensions)),
            ("metrics", Json.obj (pairsToJson r.metrics))]

/-- The top-level JSON array serialized by `format_response_as_json`. -/
def recordsToJson (rs : List FlatRecord) : Json :=
  Json.arr (rs.map recordToJson)

/-- Parsing the members of an object of string values back into pairs;
fails if any value is not a JSON string. -/
def jsonToPairs : List (String × Json) → Option (List (String × String))
  | [] => some []
  | (k, Json.str v) :: rest =>
      match jsonToPairs rest with
      | some t => some ((k, v) :: t)
      | none => none
  | _ => none

/-- Parsing one record object back into a `FlatRecord`; requires exactly
the keys `"dimensions"` and `"metrics"` with object values. -/
def jsonToRecord : Json → Option FlatRecord
  | Json.obj [(dk, Json.obj ds), (mk2, Json.obj ms)] =>
      if dk = "dimensions" then
        if mk2 = "metrics" then
          match jsonToPairs ds, jsonToPairs ms with
          | some d, some m => some { dimensions := d, metrics := m }
          | _, _ => none
        else none
      else none
  | _ => none

/-- Parsing a list of record objects element by element. -/
def jsonToRecordList : List Json → Option (List FlatRecord)
  | [] => some []
  | x :: xs =>
      match jsonToRecord x, jsonToRecordList xs with
      | some r, some rest => some (r :: rest)
      | _, _ => none

/-- Parsing the top-level JSON array back into the record list. -/
def jsonToRecords : Json → Option (List FlatRecord)
  | Json.arr xs => jsonToRecordList xs
  | _ => none

/-- The analytics property identifier hardcoded in the source. -/
def PROPERTY_ID : String := "469101596"

/-- A `DateRange` of the report request. -/
structure DateRange where
  start_date : String
  end_date : String
deriving DecidableEq, Repr

/-- A `Dimension` object of the report request. -/
structure Dimension where
  name : String
deriving DecidableEq, Repr

/-- A `Metric` object of the report request. -/
structure Metric where
  name : String
deriving DecidableEq, Repr

/-- An `OrderBy.MetricOrderBy` object: the metric to order by. -/
structure MetricOrderBy where
  metric_name : String
deriving DecidableEq, Repr

/-- An `OrderBy` object: a metric ordering with a descending flag. -/
structure OrderBy where
  metric : MetricOrderBy
  desc : Bool
deriving DecidableEq, Repr

/-- The `RunReportRequest` assembled by `get_ga4_report`. -/
structure RunReportRequest where
  property : String
  date_ranges : List DateRange
  dimensions : List Dimension
  metrics : List Metric
  order_bys : Option (List OrderBy)
  limit : Nat
deriving DecidableEq, Repr

/-- The request-construction part of `get_ga4_report` (the client creation
and the network call are external I/O and are not modelled). The Python
parameters default to `order_by_metric=None` and `limit=100000`; an omitted
argument is modelled as `none`. Python's truthiness test
`if order_by_metric:` treats both `None` and the empty string as absent. -/
def get_ga4_report_request (start_date end_date : String)
    (dimensions metrics : List String)
    (order_by_metric : Option String) (limit : Option Nat) :
    RunReportRequest :=
  let dimension_objects := dimensions.map (fun dim => Dimension.mk dim)
  let metric_objects := metrics.map (fun m => Metric.mk m)
  let order_by : Option (List OrderBy) :=
    match order_by_metric with
    | some s =>
        if s = "" then none
        else some [{ metric := { metric_name := s }, desc := true }]
    | none => none
  { property := "properties/" ++ PROPERTY_ID,
    date_ranges := [{ start_date := start_date, end_date := end_date }],
    dimensions := dimension_objects,
    metrics := metric_objects,
    order_bys := order_by,
    limit := limit.getD 100000 }

/-- The incoming HTTP request as seen by `main`; none of its fields is
ever read by the source. -/
structure HttpRequest where
  params : List (String × String)
  headers : List (String × String)
  body : String
deriving DecidableEq, Repr

/-- An outgoing HTTP response: body text and status code. -/
structure HttpResponse where
  body : String
  status_code : Nat
deriving DecidableEq, Repr

/-- A Cosmos DB document as produced by `func.Document.from_dict`. -/
structure Document where
  id : String
  data : String
deriving DecidableEq, Repr

/-- The observable effects of one invocation of `main`: the HTTP response,
the optional Cosmos DB output document, and the optional queue message. -/
structure MainEffects where
  http : HttpResponse
  outputDocument : Option Document
  msg : Option String
deriving DecidableEq, Repr

/-- `main`. The fetch step (`get_ga4_report`) performs network I/O, so its
outcome is passed in: either a `ReportResponse` or the detail string of a
raised exception. `flattenFault` models an exception raised inside
`format_response_as_json` by a malformed duck-typed response object —
impossible for the well-typed responses of this embedding, where the
flattener is total, but kept so the single `except` handler's behavior is
modelled for exceptions from either step. On success the document and
queue outputs are set and the JSON text is returned with status 200; any
exception is caught and answered with status 500, with no output writes. -/
def mainModel (req : HttpRequest) (fetchResult : Except String ReportResponse)
    (flattenFault : Option String) : MainEffects :=
  match fetchResult with
  | Except.error e =>
      { http := { body := "エラーが発生しました: " ++ e, status_code := 500 },
        outputDocument := none,
        msg := none }
  | Except.ok response =>
      match flattenFault with
      | some e =>
          { http := { body := "エラーが発生しました: " ++ e, status_code := 500 },
            outputDocument := none,
            msg := none }
      | none =>
          let results := format_response_as_json response
          { http := { body := results, status_code := 200 },
            outputDocument := some { id := "report", data := results },
            msg := some "Report processed" }

/-- Inserting a fresh key appends the pair at the end. -/
theorem dictInsert_of_not_mem (d : List (String × String)) (k v : String)
    (h : k ∉ d.map Prod.fst) :
    dictInsert d k v = d ++ [(k, v)] := by
  unfold dictInsert
  rw [if_neg h]

/-- Folding `dictInsert` over pairs whose keys are fresh for the
accumulator and mutually distinct just appends the pairs. -/
theorem foldl_dictInsert_of_nodup (ps : List (String × String)) :
    ∀ acc : List (String × String),
      (acc.map Prod.fst ++ ps.map Prod.fst).Nodup →
      ps.foldl (fun d p => dictInsert d p.1 p.2) acc = acc ++ ps := by
  induction ps with
  | nil => intro acc _; simp
  | cons p tl ih =>
      intro acc h
      obtain ⟨k, v⟩ := p
      have hk : k ∉ acc.map Prod.fst := by
        intro hmem
        have hdisj := (List.nodup_append.mp h).2.2
        exact hdisj hmem (by simp)
      have hstep : dictInsert acc k v = acc ++ [(k, v)] :=
        dictInsert_of_not_mem acc k v hk
      have h' : ((acc ++ [(k, v)]).map Prod.fst ++ tl.map Prod.fst).Nodup := by
        simpa [List.append_assoc] using h
      calc ((k, v) :: tl).foldl (fun d p => dictInsert d p.1 p.2) acc
          = tl.foldl (fun d p => dictInsert d p.1 p.2) (acc ++ [(k, v)]) := by
            simp [List.foldl_cons, hstep]
        _ = (acc ++ [(k, v)]) ++ tl := ih (acc ++ [(k, v)]) h'
        _ = acc ++ ((k, v) :: tl) := by simp

/-- On pairs with distinct keys the Python dict comprehension is the
identity: no entry is collapsed. -/
theorem pyDict_of_nodup (ps : List (String × String))
    (h : (ps.map Prod.fst).Nodup) : pyDict ps = ps := by
  simpa [pyDict] using foldl_dictInsert_of_nodup ps [] (by simpa using h)

/-- The keys of a zip are an initial part of the key list. -/
theorem map_fst_zip_sublist {α β : Type} (as : List α) (bs : List β) :
    ((as.zip bs).map Prod.fst).Sublist as := by
  induction as generalizing bs with
  | nil => simp
  | cons a as ih =>
      cases bs with
      | nil => simp
      | cons b bs => simpa using (ih bs).cons₂ a

/-- Length of the dict built from zipping distinct names with values:
the minimum of the two list lengths (Python `zip` truncates silently). -/
theorem pyDict_zip_length (names vals : List String) (h : names.Nodup) :
    (pyDict (names.zip vals)).length = min names.length vals.length := by
  have hnd : ((names.zip vals).map Prod.fst).Nodup :=
    List.Nodup.sublist (map_fst_zip_sublist names vals) h
  rw [pyDict_of_nodup _ hnd, List.length_zip]

/-- Every value of a `dictInsert` result is a value of the dict or the
inserted value. -/
theorem snd_of_mem_dictInsert (d : List (String × String)) (k v : String)
    (r : String × String) (hr : r ∈ dictInsert d k v) :
    (∃ s ∈ d, r.2 = s.2) ∨ r.2 = v := by
  unfold dictInsert at hr
  by_cases hmem : k ∈ d.map Prod.fst
  · rw [if_pos hmem] at hr
    obtain ⟨s, hs, he⟩ := List.mem_map.mp hr
    by_cases hsk : s.1 = k
    · right; rw [← he]; simp [hsk]
    · left; exact ⟨s, hs, by rw [← he]; simp [hsk]⟩
  · rw [if_neg hmem] at hr
    rcases List.mem_append.mp hr with h | h
    · exact Or.inl ⟨r, h, rfl⟩
    · right
      have : r = (k, v) := by simpa using h
      rw [this]

/-- Every value of the fold is a value of the accumulator or of the
inserted pairs. -/
theorem snd_of_mem_foldl_dictInsert (ps : List (String × String)) :
    ∀ acc (r : String × String),
      r ∈ ps.foldl (fun d p => dictInsert d p.1 p.2) acc →
      (∃ s ∈ acc, r.2 = s.2) ∨ (∃ s ∈ ps, r.2 = s.2) := by
  induction ps with
  | nil => intro acc r hr; exact Or.inl ⟨r, by simpa using hr, rfl⟩
  | cons p tl ih =>
      intro acc r hr
      rcases ih (dictInsert acc p.1 p.2) r (by simpa using hr) with h | h
      · obtain ⟨s, hs, he⟩ := h
        rcases snd_of_mem_dictInsert acc p.1 p.2 s hs with h' | h'
        · obtain ⟨t, ht, he'⟩ := h'
          exact Or.inl ⟨t, ht, he.trans he'⟩
        · exact Or.inr ⟨p, by simp, he.trans h'⟩
      · obtain ⟨s, hs, he⟩ := h
        exact Or.inr ⟨s, by simp [hs], he⟩

/-- Every value stored by the Python dict comprehension is one of the
supplied values, unmodified. -/
theorem snd_of_mem_pyDict (ps : List (String × String))
    (r : String × String) (hr : r ∈ pyDict ps) :
    ∃ s ∈ ps, r.2 = s.2 := by
  rcases snd_of_mem_foldl_dictInsert ps [] r (by simpa [pyDict] using hr)
    with h | h
  · obtain ⟨s, hs, _⟩ := h
    exact absurd hs (List.not_mem_nil s)
  · exact h

/-- Round trip for the inner objects: parsing the serialized pairs gives
back exactly the pairs. -/
theorem jsonToPairs_pairsToJson (ps : List (String × String)) :
    jsonToPairs (pairsToJson ps) = some ps := by
  induction ps with
  | nil => rfl
  | cons p tl ih =>
      obtain ⟨k, v⟩ := p
      simp [pairsToJson, jsonToPairs] at ih ⊢
      simp [ih]

/-- Round trip for one record object. -/
theorem jsonToRecord_recordToJson (r : FlatRecord) :
    jsonToRecord (recordToJson r) = some r := by
  simp [recordToJson, jsonToRecord, jsonToPairs_pairsToJson]

/-- Round trip for the whole record list. -/
theorem jsonToRecords_recordsToJson (rs : List FlatRecord) :
    jsonToRecords (recordsToJson rs) = some rs := by
  have : ∀ l : List FlatRecord,
      jsonToRecordList (l.map recordToJson) = some l := by
    intro l
    induction l with
    | nil => rfl
    | cons r tl ih => simp [jsonToRecordList, jsonToRecord_recordToJson, ih]
  simpa [recordsToJson, jsonToRecords] using this rs

/-- The response of the spec's worked example: one row, one dimension
header, one metric header. -/
def exampleResponse : ReportResponse :=
  { dimension_headers := [{ name := "pagePath" }],
    metric_headers := [{ name := "sessions" }],
    rows := [{ dimension_values := [{ value := "/home" }],
               metric_values := [{ value := "42" }] }] }

/-- A row with fewer dimension values than there are dimension headers. -/
def mismatchedRow : Row :=
  { dimension_values := [{ value := "x" }], metric_values := [] }

/-- A response whose single row has one dimension value against two
dimension headers. -/
def mismatchedResponse : ReportResponse :=
  { dimension_headers := [{ name := "a" }, { name := "b" }],
    metric_headers := [],
    rows := [mismatchedRow] }

/-- A response with two dimension headers of the same name. -/
def duplicateHeaderResponse : ReportResponse :=
  { dimension_headers := [{ name := "a" }, { name := "a" }],
    metric_headers := [{ name := "s" }],
    rows := [{ dimension_values := [{ value := "1" }, { value := "2" }],
               metric_values := [{ value := "42" }] }] }

/-- Claim C1: on a response whose rows are aligned with the headers (the
spec's §3 invariant) and whose header names are distinct (the spec's
FlatRecord model), `format_response_as_json` builds exactly one record per
row, each with exactly as many dimension entries as dimension headers and
as many metric entries as metric headers. -/
theorem flatten_counts (resp : ReportResponse)
    (hd : (resp.dimension_headers.map DimensionHeader.name).Nodup)
    (hm : (resp.metric_headers.map MetricHeader.name).Nodup)
    (halign : ∀ row ∈ resp.rows,
      row.dimension_values.length = resp.dimension_headers.length ∧
      row.metric_values.length = resp.metric_headers.length) :
    (flattenRows resp).length = resp.rows.length ∧
    ∀ rec ∈ flattenRows resp,
      rec.dimensions.length = resp.dimension_headers.length ∧
      rec.metrics.length = resp.metric_headers.length := by
  constructor
  · simp [flattenRows]
  · intro rec hrec
    obtain ⟨row, hrow, rfl⟩ :=
      List.mem_map.mp (by simpa [flattenRows] using hrec)
    obtain ⟨h1, h2⟩ := halign row hrow
    constructor
    · have := pyDict_zip_length (resp.dimension_headers.map DimensionHeader.name)
        (row.dimension_values.map DimensionValue.value) hd
      simp [flattenRow, this, h1]
    · have := pyDict_zip_length (resp.metric_headers.map MetricHeader.name)
        (row.metric_values.map MetricValue.value) hm
      simp [flattenRow, this, h2]

/-- Claim C1 witness: the hypotheses hold and the conclusion follows on
the spec's worked example. -/
theorem flatten_counts_witness :
    (exampleResponse.dimension_headers.map DimensionHeader.name).Nodup ∧
    (exampleResponse.metric_headers.map MetricHeader.name).Nodup ∧
    (∀ row ∈ exampleResponse.rows,
      row.dimension_values.length = exampleResponse.dimension_headers.length ∧
      row.metric_values.length = exampleResponse.metric_headers.length) ∧
    ((flattenRows exampleResponse).length = exampleResponse.rows.length ∧
     ∀ rec ∈ flattenRows exampleResponse,
       rec.dimensions.length = exampleResponse.dimension_headers.length ∧
       rec.metrics.length = exampleResponse.metric_headers.length) :=
  ⟨by decide, by decide, by decide,
    flatten_counts exampleResponse (by decide) (by decide) (by decide)⟩

/-- Claim C2 counterexample: on a response whose row has one dimension
value against two dimension headers, `format_response_as_json` raises
nothing — it returns normal JSON text holding a silent partial record with
a single dimension entry (Python `zip` truncates). -/
theorem format_mismatch_silent :
    mismatchedResponse.dimension_headers.length = 2 ∧
    mismatchedRow.dimension_values.length = 1 ∧
    flattenRows mismatchedResponse =
      [{ dimensions := [("a", "x")], metrics := [] }] ∧
    format_response_as_json mismatchedResponse =
      "[\n    \x7b\n        \"dimensions\": \x7b\n            \"a\": \"x\"\n        \x7d,\n        \"metrics\": \x7b\x7d\n    \x7d\n]" := by
  decide

/-- Claim C2 (amended): a row whose value count differs from the header
count does not raise any error; `format_response_as_json` silently
truncates, producing for that row a record with min(header count, value
count) dimension entries and min(header count, value count) metric
entries (assuming distinct header names). -/
theorem flatten_truncates (resp : ReportResponse) (row : Row)
    (hd : (resp.dimension_headers.map DimensionHeader.name).Nodup)
    (hm : (resp.metric_headers.map MetricHeader.name).Nodup) :
    (flattenRow resp row).dimensions.length =
      min resp.dimension_headers.length row.dimension_values.length ∧
    (flattenRow resp row).metrics.length =
      min resp.metric_headers.length row.metric_values.length := by
  constructor
  · have := pyDict_zip_length (resp.dimension_headers.map DimensionHeader.name)
      (row.dimension_values.map DimensionValue.value) hd
    simp [flattenRow, this]
  · have := pyDict_zip_length (resp.metric_headers.map MetricHeader.name)
      (row.metric_values.map MetricValue.value) hm
    simp [flattenRow, this]

/-- Claim C2 (amended) witness: evaluated on the mismatched response. -/
theorem flatten_truncates_witness :
    (mismatchedResponse.dimension_headers.map DimensionHeader.name).Nodup ∧
    (mismatchedResponse.metric_headers.map MetricHeader.name).Nodup ∧
    ((flattenRow mismatchedResponse mismatchedRow).dimensions.length =
       min mismatchedResponse.dimension_headers.length
         mismatchedRow.dimension_values.length ∧
     (flattenRow mismatchedResponse mismatchedRow).metrics.length =
       min mismatchedResponse.metric_headers.length
         mismatchedRow.metric_values.length) :=
  ⟨by decide, by decide,
    flatten_truncates mismatchedResponse mismatchedRow (by decide) (by decide)⟩

/-- Claim C3: the flattener preserves row order and does no sorting: the
record at position `i` of the output is exactly the flattening of the row
at position `i` of the response, for every position. -/
theorem flatten_preserves_order (resp : ReportResponse) (i : Nat) :
    (flattenRows resp)[i]? = (resp.rows[i]?).map (flattenRow resp) := by
  simp [flattenRows]

/-- Claim C4: every value stored in the flattened records is one of the
strings supplied by the backend response, unmodified (no type coercion),
and parsing the serialized JSON document back yields exactly the same
records (round trip). -/
theorem values_uncoerced_roundtrip (resp : ReportResponse) :
    (∀ rec ∈ flattenRows resp, ∀ p ∈ rec.dimensions,
       ∃ row ∈ resp.rows, ∃ dv ∈ row.dimension_values, p.2 = dv.value) ∧
    (∀ rec ∈ flattenRows resp, ∀ p ∈ rec.metrics,
       ∃ row ∈ resp.rows, ∃ mv ∈ row.metric_values, p.2 = mv.value) ∧
    jsonToRecords (recordsToJson (flattenRows resp)) =
      some (flattenRows resp) := by
  refine ⟨?_, ?_, jsonToRecords_recordsToJson _⟩
  · intro rec hrec p hp
    obtain ⟨row, hrow, rfl⟩ :=
      List.mem_map.mp (by simpa [flattenRows] using hrec)
    have hp' : p ∈ pyDict ((resp.dimension_headers.map DimensionHeader.name).zip
        (row.dimension_values.map DimensionValue.value)) := by
      simpa [flattenRow] using hp
    obtain ⟨q, hq, he⟩ := snd_of_mem_pyDict _ p hp'
    obtain ⟨q1, q2⟩ := q
    have hq2 : q2 ∈ row.dimension_values.map DimensionValue.value :=
      (List.of_mem_zip hq).2
    obtain ⟨dv, hdv, hev⟩ := List.mem_map.mp hq2
    exact ⟨row, hrow, dv, hdv, by rw [he, ← hev]⟩
  · intro rec hrec p hp
    obtain ⟨row, hrow, rfl⟩ :=
      List.mem_map.mp (by simpa [flattenRows] using hrec)
    have hp' : p ∈ pyDict ((resp.metric_headers.map MetricHeader.name).zip
        (row.metric_values.map MetricValue.value)) := by
      simpa [flattenRow] using hp
    obtain ⟨q, hq, he⟩ := snd_of_mem_pyDict _ p hp'
    obtain ⟨q1, q2⟩ := q
    have hq2 : q2 ∈ row.metric_values.map MetricValue.value :=
      (List.of_mem_zip hq).2
    obtain ⟨mv, hmv, hev⟩ := List.mem_map.mp hq2
    exact ⟨row, hrow, mv, hmv, by rw [he, ← hev]⟩

/-- Claim C5: whatever the header lists, a response with no rows is
serialized to the empty JSON array `[]`, with no error. -/
theorem format_empty_rows (dh : List DimensionHeader)
    (mh : List MetricHeader) :
    format_response_as_json
      { dimension_headers := dh, metric_headers := mh, rows := [] } =
      "[]" := rfl

/-- Claim C6: when fetch and flatten succeed, `main` answers HTTP 200 with
the flattened JSON as body, writes exactly one document with id `report`
whose `data` field is that same JSON text, and writes the queue message
`Report processed`. -/
theorem main_success (req : HttpRequest) (resp : ReportResponse) :
    mainModel req (Except.ok resp) none =
      { http := { body := format_response_as_json resp, status_code := 200 },
        outputDocument := some { id := "report",
                                 data := format_response_as_json resp },
        msg := some "Report processed" } := rfl

/-- Claim C7: when the fetch step or the flatten step raises, `main`
answers HTTP 500 with a message embedding the original error detail, and
neither the document nor the queue message is written. -/
theorem main_failure (req : HttpRequest) (e : String)
    (ff : Option String) (resp : ReportResponse) :
    (mainModel req (Except.error e) ff =
      { http := { body := "エラーが発生しました: " ++ e, status_code := 500 },
        outputDocument := none, msg := none }) ∧
    (mainModel req (Except.ok resp) (some e) =
      { http := { body := "エラーが発生しました: " ++ e, status_code := 500 },
        outputDocument := none, msg := none }) :=
  ⟨rfl, rfl⟩

/-- Claim C8: `main` reads nothing from the incoming HTTP request: for the
same backend outcome, any two requests yield identical HTTP responses and
identical document/queue effects. -/
theorem main_ignores_request (req1 req2 : HttpRequest)
    (fetchResult : Except String ReportResponse) (ff : Option String) :
    mainModel req1 fetchResult ff = mainModel req2 fetchResult ff := rfl

/-- Claim C9: a non-empty sort metric yields a single descending OrderBy
on that metric; no sort metric yields no ordering; an omitted limit
defaults to 100000. -/
theorem get_ga4_report_ordering (s e : String) (ds ms : List String)
    (m : String) (hm : m ≠ "") (l : Option Nat) :
    (get_ga4_report_request s e ds ms (some m) l).order_bys =
      some [{ metric := { metric_name := m }, desc := true }] ∧
    (get_ga4_report_request s e ds ms none l).order_bys = none ∧
    (get_ga4_report_request s e ds ms (some m) none).limit = 100000 ∧
    (get_ga4_report_request s e ds ms none none).limit = 100000 := by
  refine ⟨?_, rfl, rfl, rfl⟩
  simp [get_ga4_report_request, hm]

/-- Claim C9 witness: evaluated on the hardcoded parameters of `main`. -/
theorem get_ga4_report_ordering_witness :
    ("screenPageViews" : String) ≠ "" ∧
    ((get_ga4_report_request "2023-01-01" "today" ["pagePath"] ["sessions"]
        (some "screenPageViews") (some 100000)).order_bys =
      some [{ metric := { metric_name := "screenPageViews" },
              desc := true }] ∧
     (get_ga4_report_request "2023-01-01" "today" ["pagePath"] ["sessions"]
        none (some 100000)).order_bys = none ∧
     (get_ga4_report_request "2023-01-01" "today" ["pagePath"] ["sessions"]
        (some "screenPageViews") none).limit = 100000 ∧
     (get_ga4_report_request "2023-01-01" "today" ["pagePath"] ["sessions"]
        none none).limit = 100000) :=
  ⟨by decide,
    get_ga4_report_ordering "2023-01-01" "today" ["pagePath"] ["sessions"]
      "screenPageViews" (by decide) (some 100000)⟩

/-- Claim C10: duplicated header names do not fail: the dict comprehension
collapses them into one entry keyed by the duplicated name, holding the
value at the last duplicated position, so the record has fewer entries
than headers. -/
theorem duplicate_headers_collapse :
    flattenRows duplicateHeaderResponse =
      [{ dimensions := [("a", "2")], metrics := [("s", "42")] }] ∧
    duplicateHeaderResponse.dimension_headers.length = 2 ∧
    ((flattenRows duplicateHeaderResponse).map
      (fun r => r.dimensions.length)) = [1] := by
  decide
